import Mathlib

/-!
Shallow embedding of the helper logic of the saucedemo Playwright test suite.

JavaScript strings are modelled as Lean `String`; relational operators on JS
strings compare UTF-16 code units lexicographically, which we reproduce
explicitly.  JS numbers are modelled by `JSNum`: either NaN, an infinity, or an
exact rational.  Decimal literals are represented exactly as rationals rather
than as IEEE doubles; every property proved below compares values produced by
the same embedded parse on both sides, so the rounding step of a double is not
load-bearing for any claim.
-/

namespace SauceDemo

/-! ### UTF-16 code units and JS string relational operators -/

/-- The UTF-16 code units of one Unicode scalar value. -/
def utf16Units (c : Char) : List Nat :=
  if c.toNat < 0x10000 then [c.toNat]
  else [0xD800 + (c.toNat - 0x10000) / 0x400, 0xDC00 + (c.toNat - 0x10000) % 0x400]

/-- The UTF-16 code-unit sequence of a string, the form on which JS relational
operators compare strings. -/
def utf16CodeUnits (s : String) : List Nat :=
  (s.data.map utf16Units).flatten

/-- Lexicographic strict order on code-unit sequences (the ECMAScript abstract
string less-than). -/
def lexLt : List Nat → List Nat → Bool
  | [], [] => false
  | [], _ :: _ => true
  | _ :: _, [] => false
  | a :: as, b :: bs => if a < b then true else if b < a then false else lexLt as bs

/-- JS strict `a < b` on strings. -/
def jsStrLt (a b : String) : Bool := lexLt (utf16CodeUnits a) (utf16CodeUnits b)

/-- JS `a <= b` on strings, which ECMAScript defines as `!(b < a)`. -/
def jsStrLe (a b : String) : Bool := !(jsStrLt b a)

/-- JS `a >= b` on strings, which ECMAScript defines as `!(a < b)`. -/
def jsStrGe (a b : String) : Bool := !(jsStrLt a b)

/-! ### JS numbers and numeric parsing -/

/-- A JS number: NaN, an infinity, or a finite value (kept as an exact
rational). -/
inductive JSNum where
  | nan : JSNum
  | posInf : JSNum
  | negInf : JSNum
  | num : ℚ → JSNum
deriving DecidableEq, Repr

/-- Longest leading run of decimal digits, returned as digit values together
with the remainder of the input. -/
def takeDigits : List Char → List Nat × List Char
  | [] => ([], [])
  | c :: cs =>
    if c.isDigit then
      let (ds, rest) := takeDigits cs
      ((c.toNat - 48) :: ds, rest)
    else ([], c :: cs)

/-- Value of a digit string read in base ten. -/
def digitsToNat (ds : List Nat) : Nat := ds.foldl (fun a d => a * 10 + d) 0

/-- Exponent part of a JS float literal; a missing or digit-less exponent
contributes 0, matching parseFloat, which ignores a trailing partial
exponent. -/
def parseExponent : List Char → Int
  | c :: cs =>
    if c = 'e' ∨ c = 'E' then
      match cs with
      | '+' :: r => (digitsToNat (takeDigits r).1 : Int)
      | '-' :: r => -(digitsToNat (takeDigits r).1 : Int)
      | r => (digitsToNat (takeDigits r).1 : Int)
    else 0
  | [] => 0

/-- Magnitude of a JS float literal: digits, optional fraction, optional
exponent; `none` when no digit occurs before the exponent (the NaN case of
parseFloat).  Trailing garbage is ignored, as parseFloat does.  The value of
the literal is mantissa times ten to the exponent; it is assembled as one
exact rational from the integer mantissa (all digits, fraction included)
and the net power of ten. -/
def parseFloatMagnitude (cs : List Char) : Option ℚ :=
  let (intDs, rest) := takeDigits cs
  let (fracDs, rest2) :=
    match rest with
    | '.' :: r => takeDigits r
    | _ => ([], rest)
  if intDs.isEmpty && fracDs.isEmpty then none
  else
    let m : Nat := digitsToNat (intDs ++ fracDs)
    match parseExponent rest2 - (fracDs.length : Int) with
    | Int.ofNat k => some (mkRat (m * 10 ^ k) 1)
    | Int.negSucc k => some (mkRat m (10 ^ (k + 1)))

/-- Optional sign of a JS numeric literal: the sign flag and the rest of the
input. -/
def splitSign (cs : List Char) : Bool × List Char :=
  match cs with
  | '-' :: r => (true, r)
  | '+' :: r => (false, r)
  | _ => (false, cs)

/-- parseFloat after whitespace skipping: optional sign, then either an
Infinity literal or a decimal magnitude; NaN when neither parses. -/
def parseFloatSigned (cs : List Char) : JSNum :=
  let sr := splitSign cs
  if "Infinity".data.isPrefixOf sr.2 then
    if sr.1 then JSNum.negInf else JSNum.posInf
  else
    match parseFloatMagnitude sr.2 with
    | none => JSNum.nan
    | some q => JSNum.num (if sr.1 then -q else q)

/-- JS `parseFloat`.  Leading whitespace is skipped (we use the ASCII
whitespace predicate; the JS set also has exotic Unicode spaces, which never
occur in the strings of this suite). -/
def parseFloatJS (s : String) : JSNum :=
  parseFloatSigned (s.data.dropWhile fun c => c.isWhitespace)

/-- JS `a <= b` on numbers: false whenever NaN is involved, otherwise the
order with the infinities at the ends. -/
def jsNumLe : JSNum → JSNum → Bool
  | JSNum.nan, _ => false
  | _, JSNum.nan => false
  | JSNum.negInf, _ => true
  | _, JSNum.posInf => true
  | JSNum.posInf, _ => false
  | _, JSNum.negInf => false
  | JSNum.num a, JSNum.num b => decide (a ≤ b)

/-- JS `a >= b` on numbers; for every pair it agrees with `jsNumLe b a`
(both are false when NaN is involved, and the order is total otherwise). -/
def jsNumGe (a b : JSNum) : Bool := jsNumLe b a

/-- JS `+` on numbers: NaN propagates, opposite infinities give NaN. -/
def jsNumAdd : JSNum → JSNum → JSNum
  | JSNum.nan, _ => JSNum.nan
  | _, JSNum.nan => JSNum.nan
  | JSNum.posInf, JSNum.negInf => JSNum.nan
  | JSNum.negInf, JSNum.posInf => JSNum.nan
  | JSNum.posInf, _ => JSNum.posInf
  | _, JSNum.posInf => JSNum.posInf
  | JSNum.negInf, _ => JSNum.negInf
  | _, JSNum.negInf => JSNum.negInf
  | JSNum.num a, JSNum.num b => JSNum.num (a + b)

/-- Remove the first occurrence of a character from a character list. -/
def removeFirstChar (c : Char) : List Char → List Char
  | [] => []
  | x :: xs => if x = c then xs else x :: removeFirstChar c xs

/-- JS `s.replace("$", "")` with a plain-string pattern: only the first
occurrence of the dollar sign is removed, wherever it occurs. -/
def stripDollar (s : String) : String := ⟨removeFirstChar '$' s.data⟩

/-! ### InventoryPage.assertProductsSorted -/

/-- Price parsing as `InventoryPage.assertProductsSorted` performs it:
`parseFloat(text.replace("$", ""))`. -/
def parsePrice (s : String) : JSNum := parseFloatJS (stripDollar s)

/-- The per-pair comparison of the loop body of
`InventoryPage.assertProductsSorted`: names compare as JS strings, prices
compare after `parsePrice`; an unknown sortType checks nothing. -/
def sortedPairOk (sortType order current next : String) : Bool :=
  if sortType = "name" then
    if order = "asc" then jsStrLe current next else jsStrGe current next
  else if sortType = "price" then
    if order = "asc" then jsNumLe (parsePrice current) (parsePrice next)
    else jsNumGe (parsePrice current) (parsePrice next)
  else true

/-- The error message thrown by the loop body of
`InventoryPage.assertProductsSorted` on the first inversion. -/
def pairErrMsg (sortType order current next : String) : String :=
  if sortType = "name" then
    s!"Products not sorted correctly by name {order}. Found: {current} and {next}"
  else
    s!"Products not sorted correctly by price {order}. Found: {current} and {next}"

/-- `InventoryPage.assertProductsSorted`, applied to the list of displayed
name or price texts: walks adjacent pairs and throws on the first failing
comparison. -/
def assertProductsSorted (sortType order : String) : List String → Except String Unit
  | current :: next :: rest =>
    if sortType = "name" then
      if (if order = "asc" then jsStrLe current next else jsStrGe current next) then
        assertProductsSorted sortType order (next :: rest)
      else
        Except.error s!"Products not sorted correctly by name {order}. Found: {current} and {next}"
    else if sortType = "price" then
      if (if order = "asc" then jsNumLe (parsePrice current) (parsePrice next)
          else jsNumGe (parsePrice current) (parsePrice next)) then
        assertProductsSorted sortType order (next :: rest)
      else
        Except.error s!"Products not sorted correctly by price {order}. Found: {current} and {next}"
    else assertProductsSorted sortType order (next :: rest)
  | _ => Except.ok ()

/-- Reading of the C2 claim text: strip the currency symbol only when it is
the leading character, then parse. -/
def parsePriceLeading (s : String) : JSNum :=
  parseFloatJS (match s.data with
    | '$' :: r => (⟨r⟩ : String)
    | _ => s)

/-! ### CartPage -/

/-- Hex digit value, for the 0x branch of parseInt. -/
def hexDigitVal (c : Char) : Option Nat :=
  if c.isDigit then some (c.toNat - 48)
  else if 'a' ≤ c ∧ c ≤ 'f' then some (c.toNat - 87)
  else if 'A' ≤ c ∧ c ≤ 'F' then some (c.toNat - 55)
  else none

/-- Longest leading run of hex digits with their values. -/
def takeHexDigits : List Char → List Nat × List Char
  | [] => ([], [])
  | c :: cs =>
    match hexDigitVal c with
    | some d =>
      let (ds, rest) := takeHexDigits cs
      (d :: ds, rest)
    | none => ([], c :: cs)

/-- JS `parseInt` with no radix argument: skip whitespace, optional sign,
hex when the digits start with 0x or 0X, decimal otherwise; `none` is NaN.
Trailing garbage is ignored. -/
def parseIntJS (s : String) : Option Int :=
  let cs := s.data.dropWhile fun c => c.isWhitespace
  let sr := splitSign cs
  let db : List Nat × Nat :=
    match sr.2 with
    | '0' :: c :: r =>
      if c = 'x' ∨ c = 'X' then ((takeHexDigits r).1, 16)
      else ((takeDigits sr.2).1, 10)
    | _ => ((takeDigits sr.2).1, 10)
  if db.1.isEmpty then none
  else
    let v : Nat := db.1.foldl (fun a d => a * db.2 + d) 0
    some (if sr.1 then -(v : Int) else (v : Int))

/-- One step of the accumulation in `CartPage.getTotalCartItemCount`:
adding a NaN (`none`) poisons the running JS total. -/
def jsAddNaN (a b : Option Int) : Option Int :=
  match a, b with
  | some x, some y => some (x + y)
  | _, _ => none

/-- `CartPage.getTotalCartItemCount`, applied to the textContent of the
quantity cell of each cart line item: `total += quantity ? parseInt(quantity) : 0`.
An empty (falsy) text contributes 0; a non-empty text goes through parseInt,
whose NaN poisons the total. -/
def getTotalCartItemCount (quantities : List String) : Option Int :=
  quantities.foldl
    (fun totalCount quantity =>
      jsAddNaN totalCount (if quantity = "" then some 0 else parseIntJS quantity))
    (some 0)

/-- Reading of the C3 claim text: every unparsable quantity contributes 0 to
the sum. -/
def sumQuantitiesDefaultZero (quantities : List String) : Int :=
  (quantities.map fun q => (parseIntJS q).getD 0).sum

/-- `CartPage.removeAllProducts` over an abstract page state `S`:
`count` reads the number of remove buttons, `click` clicks the first one
(the 100 ms waitForTimeout between iterations does not change the state
model).  The loop body runs while the button count is positive; the
hypothesis `hdec` is the precondition of claim C10, that each click strictly
decreases the button count, which also bounds the recursion. -/
def removeAllProducts {S : Type} (count : S → Nat) (click : S → S)
    (hdec : ∀ t, 0 < count t → count (click t) < count t) (s : S) : S :=
  if h : 0 < count s then removeAllProducts count click hdec (click s) else s
termination_by count s
decreasing_by exact hdec s h

/-- Concrete cart model used to exercise `removeAllProducts`: the state is
the number of remove buttons. -/
def natCartCount (n : Nat) : Nat := n

/-- Clicking the first remove button in the concrete cart model removes one
button. -/
def natCartClick (n : Nat) : Nat := n - 1

/-! ### CheckoutOverviewPage.assertTotalCalculationCorrect -/

/-- JS `text.replace(/[^0-9.]/g, "")`: keep only decimal digits and dots. -/
def sanitizeMoney (s : String) : String := ⟨s.data.filter fun c => c.isDigit || c = '.'⟩

/-- Jest `expect(received).toBeCloseTo(expected, precision)`: equal
infinities pass, otherwise the absolute difference must be below half of
10 to the minus precision; NaN always fails. -/
def toBeCloseTo (received expected : JSNum) (precision : Nat) : Bool :=
  match received, expected with
  | JSNum.posInf, JSNum.posInf => true
  | JSNum.negInf, JSNum.negInf => true
  | JSNum.num r, JSNum.num e => decide (|r - e| < 1 / (2 * (10 : ℚ) ^ precision))
  | _, _ => false

/-- `CheckoutOverviewPage.assertTotalCalculationCorrect`, applied to the
displayed subtotal, tax and total label texts. -/
def assertTotalCalculationCorrect (subtotal tax total : String) : Bool :=
  let subtotalValue := parseFloatJS (sanitizeMoney subtotal)
  let taxValue := parseFloatJS (sanitizeMoney tax)
  let totalValue := parseFloatJS (sanitizeMoney total)
  toBeCloseTo totalValue (jsNumAdd subtotalValue taxValue) 2

/-! ### CheckoutInfoPage form fields -/

/-- Modelled from the spec: the three text inputs of the checkout
information page live in the application under test, not in this
repository.  The page object methods are pass-throughs to the driver; per
the spec round-trip property the input elements are string-valued stores
(fill sets the value verbatim, inputValue reads it back). -/
structure CheckoutForm where
  firstName : String
  lastName : String
  postalCode : String
deriving DecidableEq, Repr

/-- `CheckoutInfoPage.fillFirstName`. -/
def fillFirstName (st : CheckoutForm) (s : String) : CheckoutForm := { st with firstName := s }

/-- `CheckoutInfoPage.fillLastName`. -/
def fillLastName (st : CheckoutForm) (s : String) : CheckoutForm := { st with lastName := s }

/-- `CheckoutInfoPage.fillPostalCode`. -/
def fillPostalCode (st : CheckoutForm) (s : String) : CheckoutForm := { st with postalCode := s }

/-- `CheckoutInfoPage.getFirstNameValue`. -/
def getFirstNameValue (st : CheckoutForm) : String := st.firstName

/-- `CheckoutInfoPage.getLastNameValue`. -/
def getLastNameValue (st : CheckoutForm) : String := st.lastName

/-- `CheckoutInfoPage.getPostalCodeValue`. -/
def getPostalCodeValue (st : CheckoutForm) : String := st.postalCode

/-- State of the checkout information step of the application under test:
current URL, form contents, and the displayed validation error, if any. -/
structure CheckoutStepOneState where
  url : String
  form : CheckoutForm
  error : Option String
deriving DecidableEq, Repr

/-- Modelled from the spec: the first-step checkout validation of the
application under test is not part of this repository (only the specs that
exercise it are).  Per the spec scenario and the regression tests, pressing
continue validates first name, last name and postal code in that order;
the first empty field yields its required-field message and the user stays
on checkout-step-one with the form unchanged, otherwise navigation proceeds
to checkout-step-two. -/
def submitCheckoutInfo (st : CheckoutStepOneState) : CheckoutStepOneState :=
  if st.form.firstName = "" then { st with error := some "First Name is required" }
  else if st.form.lastName = "" then { st with error := some "Last Name is required" }
  else if st.form.postalCode = "" then { st with error := some "Postal Code is required" }
  else { st with url := "https://www.saucedemo.com/checkout-step-two.html", error := none }

/-! ### TestDataLoader.getUserCredentials -/

/-- One entry of the users fixture: the names of the environment variables
holding the credentials. -/
structure UserFixtureEntry where
  username : String
  password : String
deriving DecidableEq, Repr

/-- The pair returned by `TestDataLoader.getUserCredentials`; process.env
lookups may be undefined, hence the options. -/
structure Credentials where
  username : Option String
  password : Option String
deriving DecidableEq, Repr

/-- `TestDataLoader.getUserCredentials`: look the user type up in the users
fixture, throw when absent, otherwise read both environment variables named
by the entry. -/
def getUserCredentials (users : String → Option UserFixtureEntry)
    (env : String → Option String) (userType : String) : Except String Credentials :=
  match users userType with
  | none => Except.error ("User type \x27" ++ userType ++ "\x27 not found")
  | some user => Except.ok { username := env user.username, password := env user.password }

/-- Sample users fixture, shaped like fixtures/data/users.json. -/
def sampleUsers : String → Option UserFixtureEntry := fun t =>
  if t = "standard" then some ⟨"SAUCE_USERNAME", "SAUCE_PASSWORD"⟩ else none

/-- Sample process environment for the sample fixture. -/
def sampleEnv : String → Option String := fun n =>
  if n = "SAUCE_USERNAME" then some "standard_user"
  else if n = "SAUCE_PASSWORD" then some "secret_sauce"
  else none

/-! ### waitForPageLoad of InventoryPage and CartPage -/

/-- Observable side effects of a page-load wait. -/
inductive Effect where
  | waitLoadState : Effect
  | waitElement (selector : String) (timeoutMs : Nat) : Effect
  | warn (msg : String) : Effect
  | screenshot (tag : String) : Effect
  | logMsg (msg : String) : Effect
deriving DecidableEq, Repr

/-- Environment of a page-load wait: whether the expected container element
becomes visible within a given number of milliseconds, and the current URL
of the page. -/
structure PageEnv where
  containerAppearsWithin : Nat → Bool
  currentUrl : String

/-- `InventoryPage.waitForPageLoad`: wait for the load state, then for the
inventory container with a 15000 ms bound; on timeout, warn, take a
screenshot, log the current URL and throw an error carrying that URL. -/
def inventoryWaitForPageLoad (env : PageEnv) : List Effect × Except String Unit :=
  if env.containerAppearsWithin 15000 then
    ([Effect.waitLoadState, Effect.waitElement "inventoryContainer" 15000], Except.ok ())
  else
    ([Effect.waitLoadState, Effect.waitElement "inventoryContainer" 15000,
      Effect.warn "Inventory container not found, taking screenshot for debugging",
      Effect.screenshot "inventory-container-not-found",
      Effect.logMsg s!"Current URL: {env.currentUrl}"],
     Except.error s!"Inventory page not loaded properly. URL: {env.currentUrl}")

/-- `CartPage.waitForPageLoad`: same shape as the inventory variant, with the
cart container and cart-specific messages. -/
def cartWaitForPageLoad (env : PageEnv) : List Effect × Except String Unit :=
  if env.containerAppearsWithin 15000 then
    ([Effect.waitLoadState, Effect.waitElement "cartContainer" 15000], Except.ok ())
  else
    ([Effect.waitLoadState, Effect.waitElement "cartContainer" 15000,
      Effect.warn "Cart container not found, taking screenshot for debugging",
      Effect.screenshot "cart-container-not-found",
      Effect.logMsg s!"Current URL: {env.currentUrl}"],
     Except.error s!"Cart page not loaded properly. URL: {env.currentUrl}")

/-- Page environment in which the container appears in time. -/
def envAppears : PageEnv := ⟨fun _ => true, "https://www.saucedemo.com/inventory.html"⟩

/-- Page environment in which the container never appears. -/
def envMissing : PageEnv := ⟨fun _ => false, "https://www.saucedemo.com/"⟩

/-! ### BasePage.goto URL construction -/

/-- JS `a.startsWith(b)`, on code points (all prefixes used here are
ASCII, where code points and UTF-16 units agree). -/
def startsWithStr (s pre : String) : Bool := pre.data.isPrefixOf s.data

/-- JS `s.endsWith("/")`. -/
def endsWithSlash (s : String) : Bool := s.data.getLast? == some '/'

/-- JS `s.slice(0, -1)`, dropping the final character (only ever applied
after endsWithSlash, where the final UTF-16 unit is a full character). -/
def sliceDropLast (s : String) : String := ⟨s.data.dropLast⟩

/-- `BasePage.goto` URL construction: a path starting with http is used
verbatim; otherwise one trailing slash is stripped from the base, and the
path gets a leading slash when it has none. -/
def gotoUrl (baseURL path : String) : String :=
  if startsWithStr path "http" then path
  else
    let baseUrl := if endsWithSlash baseURL then sliceDropLast baseURL else baseURL
    let cleanPath := if startsWithStr path "/" then path else ⟨'/' :: path.data⟩
    ⟨baseUrl.data ++ cleanPath.data⟩

/-- The base with a single trailing slash removed, as the C9 claim reads. -/
def stripOneTrailingSlash (s : String) : String :=
  if endsWithSlash s then sliceDropLast s else s

/-- The path with a single leading slash removed, used to state the
junction form of the constructed URL. -/
def stripOneLeadingSlash (s : String) : String :=
  match s.data with
  | '/' :: r => (⟨r⟩ : String)
  | _ => s

/-- Reading of the C9 claim text: strip one trailing slash from the base,
strip all leading slashes from the path, and join with exactly one slash. -/
def gotoUrlOneSlashSpec (baseURL path : String) : String :=
  ⟨(stripOneTrailingSlash baseURL).data ++ '/' :: path.data.dropWhile (fun c => c = '/')⟩

/-! ## Theorems -/

theorem assertProductsSorted_ok_iff (st o : String) (items : List String) :
    assertProductsSorted st o items = Except.ok () ↔
      items.Chain' (fun a b => sortedPairOk st o a b = true) := by
  induction items with
  | nil => simp [assertProductsSorted]
  | cons a t ih =>
    cases t with
    | nil => simp [assertProductsSorted]
    | cons b r =>
      rw [List.chain'_cons, ← ih]
      simp only [assertProductsSorted, sortedPairOk]
      split_ifs <;> simp_all

theorem sortedPairOk_name_asc (a b : String) :
    sortedPairOk "name" "asc" a b = jsStrLe a b := by
  simp [sortedPairOk]

theorem sortedPairOk_name_desc (a b : String) :
    sortedPairOk "name" "desc" a b = jsStrGe a b := by
  simp [sortedPairOk]

theorem sortedPairOk_price_asc (a b : String) :
    sortedPairOk "price" "asc" a b = jsNumLe (parsePrice a) (parsePrice b) := by
  simp [sortedPairOk]

theorem sortedPairOk_price_desc (a b : String) :
    sortedPairOk "price" "desc" a b = jsNumGe (parsePrice a) (parsePrice b) := by
  simp [sortedPairOk]

/-- C1: for every sequence of product name strings,
`InventoryPage.assertProductsSorted("name", order)` succeeds exactly when
every adjacent pair (a, b) satisfies the JS string comparison a <= b for
order asc, and a >= b for order desc; otherwise it throws on the first
inversion. -/
theorem assertProductsSorted_name_iff (items : List String) :
    (assertProductsSorted "name" "asc" items = Except.ok () ↔
      items.Chain' fun a b => jsStrLe a b = true) ∧
    (assertProductsSorted "name" "desc" items = Except.ok () ↔
      items.Chain' fun a b => jsStrGe a b = true) := by
  constructor
  · rw [assertProductsSorted_ok_iff]
    simp only [sortedPairOk_name_asc]
  · rw [assertProductsSorted_ok_iff]
    simp only [sortedPairOk_name_desc]

/-- C2, counterexample to the claim as stated: the code removes the first
dollar sign anywhere in the string, not only a leading one.  On the price
list ["1$2", "5"] ascending, the code parses 12 and 5 and throws, while the
parse of the claim text (strip a leading currency symbol only) yields 1 and
5, an ascending pair, so the claimed equivalence fails. -/
theorem assertProductsSorted_price_claim_counterexample :
    ¬ ((assertProductsSorted "price" "asc" ["1$2", "5"] = Except.ok ()) ↔
      List.Chain' (fun a b => jsNumLe (parsePriceLeading a) (parsePriceLeading b) = true)
        ["1$2", "5"]) := by
  rw [assertProductsSorted_ok_iff]
  simp only [List.chain'_cons, List.chain'_singleton, and_true]
  decide

/-- C2, amended: for every sequence of displayed price strings,
`InventoryPage.assertProductsSorted("price", order)` parses each string by
removing the first occurrence of the currency symbol and converting to a
decimal number, and succeeds exactly when every adjacent parsed pair is
ordered (ascending for asc, descending for desc; comparisons involving NaN
fail). -/
theorem assertProductsSorted_price_iff (items : List String) :
    (assertProductsSorted "price" "asc" items = Except.ok () ↔
      items.Chain' fun a b => jsNumLe (parsePrice a) (parsePrice b) = true) ∧
    (assertProductsSorted "price" "desc" items = Except.ok () ↔
      items.Chain' fun a b => jsNumGe (parsePrice a) (parsePrice b) = true) := by
  constructor
  · rw [assertProductsSorted_ok_iff]
    simp only [sortedPairOk_price_asc]
  · rw [assertProductsSorted_ok_iff]
    simp only [sortedPairOk_price_desc]

/-- C3, counterexample to the claim as stated: a non-empty quantity text
that parseInt cannot parse does not contribute 0; it turns the running JS
total into NaN.  With the single line item quantity "abc" the code returns
NaN while the claimed sum is 0. -/
theorem getTotalCartItemCount_claim_counterexample :
    getTotalCartItemCount ["abc"] = none ∧
    getTotalCartItemCount ["abc"] ≠ some (sumQuantitiesDefaultZero ["abc"]) := by
  constructor <;> decide

theorem getTotalCartItemCount_foldl (qs : List String)
    (h : ∀ q ∈ qs, q ≠ "" → (parseIntJS q).isSome = true) :
    ∀ n : Int,
      qs.foldl
        (fun totalCount quantity =>
          jsAddNaN totalCount (if quantity = "" then some 0 else parseIntJS quantity))
        (some n) =
      some (n + (qs.map fun q => if q = "" then 0 else (parseIntJS q).getD 0).sum) := by
  induction qs with
  | nil => intro n; simp
  | cons q qs ih =>
    intro n
    have hrest : ∀ p ∈ qs, p ≠ "" → (parseIntJS p).isSome = true := fun p hp =>
      h p (List.mem_cons_of_mem q hp)
    by_cases hq0 : q = ""
    · have hstep : jsAddNaN (some n) (if q = "" then some 0 else parseIntJS q) =
          some (n + 0) := by
        simp [hq0, jsAddNaN]
      rw [List.foldl_cons, hstep, ih hrest]
      simp [hq0]
    · obtain ⟨v, hv⟩ := Option.isSome_iff_exists.mp (h q (List.mem_cons_self q qs) hq0)
      have hstep : jsAddNaN (some n) (if q = "" then some 0 else parseIntJS q) =
          some (n + v) := by
        simp [hq0, hv, jsAddNaN]
      rw [List.foldl_cons, hstep, ih hrest]
      simp only [List.map_cons, List.sum_cons, Option.some.injEq, if_neg hq0, hv,
        Option.getD_some]
      omega

/-- C3, amended: `CartPage.getTotalCartItemCount` returns the sum over all
line items of the quantity text parsed as an integer, where an empty (falsy)
quantity contributes 0; when some non-empty quantity does not parse, the
total is NaN instead. -/
theorem getTotalCartItemCount_amended (qs : List String)
    (h : ∀ q ∈ qs, q ≠ "" → (parseIntJS q).isSome = true) :
    getTotalCartItemCount qs =
      some ((qs.map fun q => if q = "" then 0 else (parseIntJS q).getD 0).sum) := by
  have := getTotalCartItemCount_foldl qs h 0
  simpa [getTotalCartItemCount] using this

/-- Witness for C3 at the quantity texts "2", "" and "3". -/
theorem getTotalCartItemCount_amended_witness :
    getTotalCartItemCount ["2", "", "3"] = some 5 := by
  rw [getTotalCartItemCount_amended ["2", "", "3"] (by decide)]
  decide

theorem infinityPrefix_head {cs : List Char}
    (h : "Infinity".data.isPrefixOf cs = true) : ∃ r, cs = 'I' :: r := by
  cases cs with
  | nil => exact absurd h (by decide)
  | cons c r =>
    by_cases hc : c = 'I'
    · exact ⟨r, by rw [hc]⟩
    · have hd : "Infinity".data = 'I' :: "nfinity".data := by decide
      rw [hd] at h
      simp only [List.isPrefixOf, Bool.and_eq_true, beq_iff_eq] at h
      exact absurd h.1.symm hc

theorem parseFloatSigned_sanitized (cs : List Char)
    (h : ∀ c ∈ cs, (c.isDigit || c = '.') = true) :
    parseFloatSigned cs = JSNum.nan ∨ ∃ q, parseFloatSigned cs = JSNum.num q := by
  cases cs with
  | nil => left; decide
  | cons c r =>
    have hc := h c (List.mem_cons_self c r)
    have hsplit : splitSign (c :: r) = (false, c :: r) := by
      have h1 : c ≠ '-' := by rintro rfl; exact absurd hc (by decide)
      have h2 : c ≠ '+' := by rintro rfl; exact absurd hc (by decide)
      unfold splitSign
      split <;> simp_all
    have hinf : ("Infinity".data.isPrefixOf (c :: r)) = false := by
      cases hp : ("Infinity".data.isPrefixOf (c :: r)) with
      | false => rfl
      | true =>
        obtain ⟨t, ht⟩ := infinityPrefix_head hp
        have hcI : c = 'I' := (List.cons.inj ht).1
        subst hcI
        exact absurd hc (by decide)
    rcases hm : parseFloatMagnitude (c :: r) with _ | q
    · left
      simp only [parseFloatSigned, hsplit, hinf, hm, Bool.false_eq_true, if_false]
    · right
      refine ⟨q, ?_⟩
      simp only [parseFloatSigned, hsplit, hinf, hm, Bool.false_eq_true, if_false]

theorem parseFloat_sanitized_cases (s : String) :
    parseFloatJS (sanitizeMoney s) = JSNum.nan ∨
      ∃ q, parseFloatJS (sanitizeMoney s) = JSNum.num q := by
  unfold parseFloatJS
  apply parseFloatSigned_sanitized
  intro c hcmem
  have h1 : c ∈ (sanitizeMoney s).data :=
    (List.dropWhile_sublist _).subset hcmem
  have h2 : c ∈ s.data.filter (fun c => c.isDigit || c = '.') := h1
  exact (List.mem_filter.mp h2).2

/-- C4: `CheckoutOverviewPage.assertTotalCalculationCorrect` extracts the
numeric value of each label by deleting every character other than a digit
or a dot and applying parseFloat, and succeeds exactly when all three labels
parse and the total differs from subtotal plus tax by less than 0.005, the
two-decimal-place tolerance of toBeCloseTo. -/
theorem assertTotalCalculationCorrect_iff (subtotal tax total : String) :
    assertTotalCalculationCorrect subtotal tax total = true ↔
      ∃ s t tot : ℚ,
        parseFloatJS (sanitizeMoney subtotal) = JSNum.num s ∧
        parseFloatJS (sanitizeMoney tax) = JSNum.num t ∧
        parseFloatJS (sanitizeMoney total) = JSNum.num tot ∧
        |tot - (s + t)| < 1 / 200 := by
  have h200 : (1 : ℚ) / (2 * (10 : ℚ) ^ (2 : Nat)) = 1 / 200 := by norm_num
  rcases parseFloat_sanitized_cases subtotal with hs | ⟨s, hs⟩ <;>
    rcases parseFloat_sanitized_cases tax with ht | ⟨t, ht⟩ <;>
      rcases parseFloat_sanitized_cases total with htot | ⟨tot, htot⟩ <;>
        simp [assertTotalCalculationCorrect, hs, ht, htot, jsNumAdd, toBeCloseTo, h200]

/-- C5: filling a checkout form field and reading it back through the
matching accessor returns the identical string, for every field and every
value, special characters, long strings and surrounding spaces included. -/
theorem fill_then_read_round_trip (st : CheckoutForm) (s : String) :
    getFirstNameValue (fillFirstName st s) = s ∧
    getLastNameValue (fillLastName st s) = s ∧
    getPostalCodeValue (fillPostalCode st s) = s :=
  ⟨rfl, rfl, rfl⟩

/-- C6: submitting the checkout form with the first name empty and only the
postal code filled yields the validation message First Name is required,
leaves the URL on checkout-step-one, and leaves the form contents
unchanged. -/
theorem submit_missing_first_name (postalCode : String) :
    (submitCheckoutInfo
        ⟨"https://www.saucedemo.com/checkout-step-one.html", ⟨"", "", postalCode⟩, none⟩).error =
      some "First Name is required" ∧
    (submitCheckoutInfo
        ⟨"https://www.saucedemo.com/checkout-step-one.html", ⟨"", "", postalCode⟩, none⟩).url =
      "https://www.saucedemo.com/checkout-step-one.html" ∧
    (submitCheckoutInfo
        ⟨"https://www.saucedemo.com/checkout-step-one.html", ⟨"", "", postalCode⟩, none⟩).form =
      ⟨"", "", postalCode⟩ := by
  refine ⟨?_, ?_, ?_⟩ <;> simp [submitCheckoutInfo]

/-- C7: `TestDataLoader.getUserCredentials` returns, for a user type present
in the users fixture, the pair of environment-variable values named by the
fixture entry, and throws an error naming the user type when the type is
absent. -/
theorem getUserCredentials_spec (users : String → Option UserFixtureEntry)
    (env : String → Option String) (userType : String) :
    (∀ e, users userType = some e →
      getUserCredentials users env userType =
        Except.ok ⟨env e.username, env e.password⟩) ∧
    (users userType = none →
      getUserCredentials users env userType =
        Except.error ("User type \x27" ++ userType ++ "\x27 not found")) := by
  constructor
  · intro e he
    simp [getUserCredentials, he]
  · intro hn
    simp [getUserCredentials, hn]

/-- Witness for C7 on the sample fixture: the standard type resolves through
the environment, and an unknown type produces the naming error. -/
theorem getUserCredentials_spec_witness :
    getUserCredentials sampleUsers sampleEnv "standard" =
      Except.ok ⟨some "standard_user", some "secret_sauce"⟩ ∧
    getUserCredentials sampleUsers sampleEnv "nosuch" =
      Except.error "User type \x27nosuch\x27 not found" := by
  constructor
  · have h := (getUserCredentials_spec sampleUsers sampleEnv "standard").1
      ⟨"SAUCE_USERNAME", "SAUCE_PASSWORD"⟩ (by simp [sampleUsers])
    rw [h]
    simp [sampleEnv]
  · have h := (getUserCredentials_spec sampleUsers sampleEnv "nosuch").2
      (by simp [sampleUsers])
    rw [h]
    have hs : "User type \x27" ++ "nosuch" ++ "\x27 not found" =
        "User type \x27nosuch\x27 not found" := by decide
    rw [hs]

/-- C8: for both InventoryPage and CartPage, when the container element
becomes visible within the 15000 ms bound the page-load wait returns with no
error, and when it does not, the wait takes a screenshot, logs the current
URL, and throws an error whose message carries the current URL. -/
theorem waitForPageLoad_timeout_spec (env : PageEnv) :
    ((env.containerAppearsWithin 15000 = true →
        (inventoryWaitForPageLoad env).2 = Except.ok ()) ∧
      (env.containerAppearsWithin 15000 = false →
        Effect.screenshot "inventory-container-not-found" ∈ (inventoryWaitForPageLoad env).1 ∧
        Effect.logMsg s!"Current URL: {env.currentUrl}" ∈ (inventoryWaitForPageLoad env).1 ∧
        (inventoryWaitForPageLoad env).2 =
          Except.error s!"Inventory page not loaded properly. URL: {env.currentUrl}")) ∧
    ((env.containerAppearsWithin 15000 = true →
        (cartWaitForPageLoad env).2 = Except.ok ()) ∧
      (env.containerAppearsWithin 15000 = false →
        Effect.screenshot "cart-container-not-found" ∈ (cartWaitForPageLoad env).1 ∧
        Effect.logMsg s!"Current URL: {env.currentUrl}" ∈ (cartWaitForPageLoad env).1 ∧
        (cartWaitForPageLoad env).2 =
          Except.error s!"Cart page not loaded properly. URL: {env.currentUrl}")) := by
  refine ⟨⟨?_, ?_⟩, ⟨?_, ?_⟩⟩ <;> intro h <;>
    simp [inventoryWaitForPageLoad, cartWaitForPageLoad, h]

/-- Witness for C8: a page whose container appears loads without error, and
a page whose container never appears produces the screenshot effect. -/
theorem waitForPageLoad_timeout_spec_witness :
    (inventoryWaitForPageLoad envAppears).2 = Except.ok () ∧
    Effect.screenshot "cart-container-not-found" ∈ (cartWaitForPageLoad envMissing).1 :=
  ⟨(waitForPageLoad_timeout_spec envAppears).1.1 rfl,
    ((waitForPageLoad_timeout_spec envMissing).2.2 rfl).1⟩

/-- C9, counterexample to the claim as stated: the code only prepends a
slash when the path has none, it never collapses existing slashes.  With
base http slash slash a.com and path of two leading slashes, the junction
keeps two slashes, while the claim promises exactly one regardless of the
path. -/
theorem gotoUrl_claim_counterexample :
    gotoUrl "http://a.com" "//x" = "http://a.com//x" ∧
    gotoUrlOneSlashSpec "http://a.com" "//x" = "http://a.com/x" ∧
    gotoUrl "http://a.com" "//x" ≠ gotoUrlOneSlashSpec "http://a.com" "//x" := by
  refine ⟨?_, ?_, ?_⟩ <;> decide

theorem startsWithStr_slash {s : String} (h : startsWithStr s "/" = true) :
    ∃ r, s.data = '/' :: r := by
  unfold startsWithStr at h
  have hd : "/".data = ['/'] := by decide
  rw [hd] at h
  cases hs : s.data with
  | nil => rw [hs] at h; exact absurd h (by decide)
  | cons c r =>
    rw [hs] at h
    simp only [List.isPrefixOf, Bool.and_eq_true, beq_iff_eq] at h
    refine ⟨r, ?_⟩
    rw [← h.1]

theorem startsWithStr_slash_of_data {path : String} {r : List Char}
    (heq : path.data = '/' :: r) : startsWithStr path "/" = true := by
  show ("/").data.isPrefixOf path.data = true
  rw [heq]
  have hd : "/".data = ['/'] := by decide
  rw [hd]
  simp [List.isPrefixOf]

theorem stripOneLeadingSlash_of_not_slash {path : String}
    (hp : startsWithStr path "/" = false) : stripOneLeadingSlash path = path := by
  unfold stripOneLeadingSlash
  split
  · next x heq =>
    exact absurd ((startsWithStr_slash_of_data heq).symm.trans hp) (by decide)
  · rfl

/-- C9, amended: for every base and every path not starting with http, the
constructed URL is the base with one trailing slash removed (when present),
then one slash, then the path with one leading slash removed (when
present); so the junction has exactly one slash provided the base does not
end in a double slash and the path does not begin with one.  A path
starting with http is used verbatim. -/
theorem gotoUrl_amended (base path : String)
    (hhttp : startsWithStr path "http" = false) :
    gotoUrl base path =
      (⟨(stripOneTrailingSlash base).data ++ '/' :: (stripOneLeadingSlash path).data⟩ :
        String) ∧
    (∀ p : String, startsWithStr p "http" = true → gotoUrl base p = p) := by
  constructor
  · simp only [gotoUrl, hhttp, Bool.false_eq_true, if_false, stripOneTrailingSlash]
    cases hp : startsWithStr path "/" with
    | true =>
      obtain ⟨r, hr⟩ := startsWithStr_slash hp
      simp only [hp, if_true, stripOneLeadingSlash, hr]
    | false =>
      simp only [hp, Bool.false_eq_true, if_false, stripOneLeadingSlash_of_not_slash hp]
  · intro p hp
    simp [gotoUrl, hp]

/-- Witness for C9: a base with a trailing slash joined to a path with a
leading slash produces a single-slash junction, and an absolute http path
is returned verbatim. -/
theorem gotoUrl_amended_witness :
    gotoUrl "https://www.saucedemo.com/" "/inventory.html" =
      "https://www.saucedemo.com/inventory.html" ∧
    gotoUrl "https://www.saucedemo.com" "https://other.example/page" =
      "https://other.example/page" := by
  constructor
  · rw [(gotoUrl_amended "https://www.saucedemo.com/" "/inventory.html" (by decide)).1]
    decide
  · exact (gotoUrl_amended "https://www.saucedemo.com" "x" (by decide)).2
      "https://other.example/page" (by decide)

/-- C10: under the precondition that each click on the first remove button
strictly decreases the remove-button count, `CartPage.removeAllProducts`
terminates (the definition is total by well-founded recursion on the count)
and on return the remove-button count is 0. -/
theorem removeAllProducts_empties {S : Type} (count : S → Nat) (click : S → S)
    (hdec : ∀ t, 0 < count t → count (click t) < count t) (s : S) :
    count (removeAllProducts count click hdec s) = 0 := by
  suffices H : ∀ n (t : S), count t ≤ n → count (removeAllProducts count click hdec t) = 0 by
    exact H (count s) s le_rfl
  intro n
  induction n with
  | zero =>
    intro t ht
    rw [removeAllProducts]
    split
    · next hpos => omega
    · next hneg => omega
  | succ n ihn =>
    intro t ht
    rw [removeAllProducts]
    split
    · next hpos =>
      exact ihn (click t) (by have := hdec t hpos; omega)
    · next hneg => omega

/-- Proof that the concrete cart model satisfies the precondition of C10. -/
theorem natCartDec : ∀ n, 0 < natCartCount n → natCartCount (natCartClick n) < natCartCount n := by
  intro n h
  simp only [natCartCount] at h
  simp only [natCartCount, natCartClick]
  omega

/-- Witness for C10 on the concrete cart model with three remove buttons. -/
theorem removeAllProducts_empties_witness :
    natCartCount (removeAllProducts natCartCount natCartClick natCartDec 3) = 0 :=
  removeAllProducts_empties natCartCount natCartClick natCartDec 3

end SauceDemo
